import Mathlib

/-!
Shallow embedding, in Lean 4, of the submission-judging pipeline of the
`coding-platform-backend` repository.

The definitions below are translated from the Python sources:

* `worker/config.py`   — `ExecutionStatus`, `ExecutionStrategy`, `LanguageConfig`,
                          `ResourceLimits`, the `LANGUAGES` table and `get_language`;
* `worker/executor.py` — `_outputs_match`, `DockerExecutor._run_single_test`,
                          `_parse_batch_results`, `_build_result`, `_error_result`,
                          `_create_error_results`, `_compile`, `execute`;
* `app/models/submission.py`          — `SubmissionStatus`, the `Submission` row;
* `app/services/judge_queue.py`       — `STATUS_MAP`, `get_test_cases`,
                          `judge_submission`, `_accept_submission`,
                          `_fail_submission`, `_process_results`;
* `app/services/submission_service.py` — `create_submission`;
* `app/api/routes/submissions.py`      — `submitCode`;
* `worker/judge_worker.py`             — `JudgeWorker._get_pending` / `_process`.

Timing metrics (wall-clock seconds, float milliseconds) are modelled as
integers: no claim below depends on their numeric value, only on which field
they are copied into.  Python's `json.loads` is modelled by an executable
recursive descent parser `loads` over a JSON value type mirroring what the
decoder produces: exact ints for integer literals, correctly rounded IEEE-754
binary64 doubles (represented exactly, with overflow to infinity and the
non-standard `NaN`/`Infinity` literals) for real literals, and objects
canonicalised to sorted last-key-wins entry lists.  `jsonEq` mirrors Python's
`==` on those documents, including the identification of booleans with 0/1
and the exact int/float numeric comparison; `pyStrip` removes the full
Unicode whitespace set of `str.strip()`.
-/

namespace Judge

/-- `worker/config.py` — `ExecutionStatus`: possible outcomes when executing
user code. -/
inductive ExecutionStatus where
  | success
  | wrong_answer
  | time_limit_exceeded
  | memory_limit_exceeded
  | runtime_error
  | compilation_error
  | internal_error
deriving DecidableEq, Repr

/-- `worker/config.py` — `ExecutionStrategy`: how test cases are executed. -/
inductive ExecutionStrategy where
  | batch
  | individual
deriving DecidableEq, Repr

/-- `app/models/submission.py` — `SubmissionStatus`: status of a code
submission. -/
inductive SubmissionStatus where
  | pending
  | running
  | accepted
  | wrong_answer
  | time_limit_exceeded
  | memory_limit_exceeded
  | runtime_error
  | compilation_error
deriving DecidableEq, Repr

/-! ### Python string stripping -/

/-- The characters removed by Python's `str.strip()`: exactly the code points
with `str.isspace()` true (CPython's Unicode whitespace table) — tab through
carriage return (9-13), the separators 28-31, space, NEL 0x85, NBSP 0xA0,
Ogham space 0x1680, the typographic spaces 0x2000-0x200A, the line and
paragraph separators 0x2028/0x2029, 0x202F, 0x205F and the ideographic space
0x3000. -/
def pyWhitespaceChars : List Char :=
  [Char.ofNat 9, Char.ofNat 10, Char.ofNat 11, Char.ofNat 12, Char.ofNat 13,
   Char.ofNat 28, Char.ofNat 29, Char.ofNat 30, Char.ofNat 31, Char.ofNat 32,
   Char.ofNat 133, Char.ofNat 160, Char.ofNat 5760,
   Char.ofNat 8192, Char.ofNat 8193, Char.ofNat 8194, Char.ofNat 8195, Char.ofNat 8196,
   Char.ofNat 8197, Char.ofNat 8198, Char.ofNat 8199, Char.ofNat 8200, Char.ofNat 8201,
   Char.ofNat 8202, Char.ofNat 8232, Char.ofNat 8233, Char.ofNat 8239, Char.ofNat 8287,
   Char.ofNat 12288]

def isPyWhitespace (c : Char) : Bool := pyWhitespaceChars.contains c

/-- Python slicing `s[:n]`: the first `n` characters of `s`. -/
def pyTake (s : String) (n : Nat) : String := String.mk (s.data.take n)

/-- Python `s.strip()`: remove leading and trailing whitespace. -/
def pyStrip (s : String) : String :=
  String.mk (((s.data.dropWhile isPyWhitespace).reverse.dropWhile isPyWhitespace).reverse)

/-! ### JSON values and Python `json.loads`

`worker/executor.py` compares outputs through `json.loads`.  We model parsed
JSON documents by `Json` below.  Numbers are kept as decimal pairs
(mantissa, exponent) so that `1` and `1.0` compare equal, as they do under
Python `==`.  Objects are canonicalised while parsing: entries are kept sorted
by key and a repeated key overwrites the earlier entry (Python dict
semantics), so that Python's order-insensitive dict equality becomes plain
list equality. -/

/-- A Python `float` as produced by `json.loads` for a JSON real literal: a
finite IEEE-754 binary64 value represented exactly as `sig * 2 ^ exp2`, one
of the two infinities, or NaN. -/
inductive PyFloat where
  | finite (sig : Int) (exp2 : Int)
  | inf (positive : Bool)
  | nan
deriving DecidableEq, Repr

/-- Round the fraction `num / den` (`den > 0`) to the nearest integer, ties
to even. -/
def roundHalfEven (num den : Nat) : Nat :=
  let q := num / den
  let r := num % den
  if 2 * r < den then q
  else if 2 * r > den then q + 1
  else if q % 2 == 0 then q else q + 1

/-- Does the positive rational `p / q` satisfy `p / q ≥ 2 ^ k`? -/
def ratGePow2 (p q : Nat) (k : Int) : Bool :=
  if 0 ≤ k then p ≥ q * 2 ^ k.toNat else p * 2 ^ (-k).toNat ≥ q

/-- Binary search for the largest `k` in `[lo, hi)` with `p / q ≥ 2 ^ k`,
given that it holds at `lo` and fails at `hi`. -/
def binadeSearch : Nat → Int → Int → Nat → Nat → Int
  | 0, lo, _, _, _ => lo
  | fuel + 1, lo, hi, p, q =>
    if hi - lo ≤ 1 then lo
    else
      let mid := (lo + hi) / 2
      if ratGePow2 p q mid then binadeSearch fuel mid hi p q
      else binadeSearch fuel lo mid p q

/-- The correctly rounded IEEE-754 binary64 value of the decimal
`m * 10 ^ e10` — what Python's `float(numstr)` produces for the literal:
round to nearest with ties to even at 53 significant bits, gradual underflow
to subnormals below `2 ^ -1022`, and overflow to an infinity at or beyond
`2 ^ 1024`. -/
def roundToDouble (m : Int) (e10 : Int) : PyFloat :=
  if m == 0 then .finite 0 0
  else
    let a : Nat := m.natAbs
    let (p, q) : Nat × Nat :=
      if 0 ≤ e10 then (a * 10 ^ e10.toNat, 1) else (a, 10 ^ (-e10).toNat)
    if ratGePow2 p q 1024 then .inf (0 ≤ m)
    else if !ratGePow2 p q (-1022) then
      let sig := roundHalfEven (p * 2 ^ 1074) q
      if sig == 0 then .finite 0 0
      else .finite (if 0 ≤ m then (sig : Int) else -(sig : Int)) (-1074)
    else
      let k := binadeSearch 15 (-1022) 1024 p q
      let pe := k - 52
      let sig :=
        if 0 ≤ pe then roundHalfEven p (q * 2 ^ pe.toNat)
        else roundHalfEven (p * 2 ^ (-pe).toNat) q
      let (pr, qr) : Nat × Nat :=
        if 0 ≤ pe then (sig * 2 ^ pe.toNat, 1) else (sig, 2 ^ (-pe).toNat)
      if ratGePow2 pr qr 1024 then .inf (0 ≤ m)
      else .finite (if 0 ≤ m then (sig : Int) else -(sig : Int)) pe

inductive Json where
  | null
  | bool (b : Bool)
  | int (i : Int)
  | float (f : PyFloat)
  | str (s : String)
  | arr (elems : List Json)
  | obj (entries : List (String × Json))
deriving Repr

/-- A Python number (int or float); `True`/`False` count as `1`/`0` because
`bool` is a subclass of `int`. -/
inductive PyNum where
  | int (i : Int)
  | float (f : PyFloat)
deriving DecidableEq, Repr

/-- The numeric view of a parsed JSON value, when it has one. -/
def numView : Json → Option PyNum
  | .bool b => some (.int (if b then 1 else 0))
  | .int i => some (.int i)
  | .float f => some (.float f)
  | _ => none

/-- Python `==` on two floats: finite values compare by exact value,
infinities by sign, and NaN is equal to nothing (including itself). -/
def floatEq : PyFloat → PyFloat → Bool
  | .finite s1 e1, .finite s2 e2 =>
    if e1 ≤ e2 then s1 == s2 * ((2 ^ (e2 - e1).toNat : Nat) : Int)
    else s1 * ((2 ^ (e1 - e2).toNat : Nat) : Int) == s2
  | .inf a, .inf b => a == b
  | _, _ => false

/-- Python `==` between an int and a float: exact numeric comparison. -/
def intFloatEq (i : Int) : PyFloat → Bool
  | .finite s e =>
    if 0 ≤ e then i == s * ((2 ^ e.toNat : Nat) : Int)
    else i * ((2 ^ (-e).toNat : Nat) : Int) == s
  | _ => false

/-- Python `==` on two numbers (with booleans as 0/1). -/
def pyNumEq : PyNum → PyNum → Bool
  | .int i, .int j => i == j
  | .float f, .float g => floatEq f g
  | .int i, .float f => intFloatEq i f
  | .float f, .int i => intFloatEq i f

mutual

/-- Python `==` on parsed JSON documents as produced by `loads` (objects are
in canonical sorted last-key-wins form, so dict equality is entrywise):
numbers — including booleans, which Python identifies with 0/1 — compare by
`pyNumEq`, strings and null structurally, containers elementwise. -/
def jsonEq : Json → Json → Bool
  | .null, .null => true
  | .str a, .str b => a == b
  | .arr a, .arr b => jsonListEq a b
  | .obj a, .obj b => jsonObjEq a b
  | a, b =>
    match numView a, numView b with
    | some x, some y => pyNumEq x y
    | _, _ => false

def jsonListEq : List Json → List Json → Bool
  | [], [] => true
  | x :: xs, y :: ys => jsonEq x y && jsonListEq xs ys
  | _, _ => false

def jsonObjEq : List (String × Json) → List (String × Json) → Bool
  | [], [] => true
  | (k1, v1) :: xs, (k2, v2) :: ys => k1 == k2 && jsonEq v1 v2 && jsonObjEq xs ys
  | _, _ => false

end

/-- Lexicographic order on character lists by code point, as a Boolean. -/
def charListLt : List Char → List Char → Bool
  | [], [] => false
  | [], _ :: _ => true
  | _ :: _, [] => false
  | c :: cs, d :: ds =>
    if c.toNat < d.toNat then true
    else if d.toNat < c.toNat then false
    else charListLt cs ds

/-- Lexicographic order on strings, used only to canonicalise object keys. -/
def strLt (a b : String) : Bool := charListLt a.data b.data

/-- Insert a key/value pair into an object kept sorted by key; an existing
entry with the same key is overwritten (Python dict: later duplicate key
wins). -/
def objInsert (k : String) (v : Json) : List (String × Json) → List (String × Json)
  | [] => [(k, v)]
  | (k', v') :: rest =>
    if k == k' then (k, v) :: rest
    else if strLt k k' then (k, v) :: (k', v') :: rest
    else (k', v') :: objInsert k v rest

/-- JSON whitespace characters (RFC 8259: space, tab, newline, carriage
return). -/
def jsonWsChars : List Char := [' ', '\t', '\n', '\r']

/-- Skip JSON whitespace between tokens. -/
def skipJsonWs : List Char → List Char
  | [] => []
  | c :: cs => if jsonWsChars.contains c then skipJsonWs cs else c :: cs

/-- Decode one digit character. -/
def digitVal (c : Char) : Nat := c.toNat - '0'.toNat

/-- Decode one hex digit character (code points: digits 48-57, lower-case
letters 97-102, upper-case letters 65-70). -/
def hexVal (c : Char) : Option Nat :=
  let n := c.toNat
  if 48 ≤ n && n ≤ 57 then some (n - 48)
  else if 97 ≤ n && n ≤ 102 then some (n - 87)
  else if 65 ≤ n && n ≤ 70 then some (n - 55)
  else none

/-- The single-character escape sequences of a JSON string literal
(`\uXXXX` is handled separately). -/
def escapeChar (c : Char) : Option Char :=
  if c == '\"' || c == '\\' || c == '/' then some c
  else if c == 'b' then some (Char.ofNat 8)
  else if c == 'f' then some (Char.ofNat 12)
  else if c == 'n' then some '\n'
  else if c == 'r' then some '\r'
  else if c == 't' then some '\t'
  else none

/-- Decode the four hex digits of a `\uXXXX` escape. -/
def hexQuad (h1 h2 h3 h4 : Char) : Option Char :=
  match hexVal h1, hexVal h2, hexVal h3, hexVal h4 with
  | some a, some b, some c, some d => some (Char.ofNat (((a * 16 + b) * 16 + c) * 16 + d))
  | _, _, _, _ => none

/-- Parse the body of a JSON string literal (after the opening quote),
handling the escape sequences accepted by Python's `json.loads`. -/
def parseStringBody : List Char → List Char → Option (String × List Char)
  | acc, c :: cs =>
    if c == '\"' then some (String.mk acc.reverse, cs)
    else if c == '\\' then
      match cs with
      | 'u' :: h1 :: h2 :: h3 :: h4 :: rest =>
        match hexQuad h1 h2 h3 h4 with
        | some d => parseStringBody (d :: acc) rest
        | none => none
      | e :: rest =>
        match escapeChar e with
        | some d => parseStringBody (d :: acc) rest
        | none => none
      | [] => none
    else if c.toNat < 32 then none
    else parseStringBody (c :: acc) cs
  | _, [] => none

/-- Read a run of decimal digits, returning their value, their count and the
rest of the input. -/
def readDigits : List Char → Nat → Nat → Nat × Nat × List Char
  | c :: cs, acc, n =>
    if c.isDigit then readDigits cs (acc * 10 + digitVal c) (n + 1)
    else (acc, n, c :: cs)
  | [], acc, n => (acc, n, [])

/-- Parse a JSON number, following the JSON grammar: optional minus, integer
part without superfluous leading zero, optional fraction, optional exponent.
As in Python's `json.decoder`, a literal with neither fraction nor exponent
becomes an exact int, any other the correctly rounded IEEE-754 double
(`float(numstr)`). -/
def parseNumber (input : List Char) : Option (Json × List Char) :=
  let (neg, cs0) :=
    match input with
    | '-' :: rest => (true, rest)
    | _ => (false, input)
  let (intVal, intLen, cs1) := readDigits cs0 0 0
  if intLen == 0 then none
  else if intLen > 1 && cs0.head? == some '0' then none
  else
    let fracStep : Option (Nat × Int × Bool × List Char) :=
      match cs1 with
      | '.' :: rest =>
        let (fracVal, fracLen, rest') := readDigits rest 0 0
        if fracLen == 0 then none
        else some (intVal * 10 ^ fracLen + fracVal, -(fracLen : Int), true, rest')
      | _ => some (intVal, 0, false, cs1)
    match fracStep with
    | none => none
    | some (mant, exp10, hasFrac, cs2) =>
      let expStep : Option (Int × Bool × List Char) :=
        match cs2 with
        | 'e' :: rest | 'E' :: rest =>
          let (esign, rest2) :=
            match rest with
            | '+' :: r => ((1 : Int), r)
            | '-' :: r => ((-1 : Int), r)
            | _ => ((1 : Int), rest)
          let (eVal, eLen, rest') := readDigits rest2 0 0
          if eLen == 0 then none else some (esign * (eVal : Int), true, rest')
        | _ => some (0, false, cs2)
      match expStep with
      | none => none
      | some (expAdj, hasExp, cs3) =>
        let m : Int := if neg then -(mant : Int) else (mant : Int)
        if hasFrac || hasExp then
          some (Json.float (roundToDouble m (exp10 + expAdj)), cs3)
        else some (Json.int m, cs3)

/-- The opening-brace and closing-brace characters. -/
def lbraceChar : Char := Char.ofNat 123

def rbraceChar : Char := Char.ofNat 125

/-- If `cs` starts with the keyword `kw`, return the remaining input. -/
def dropKeyword (kw cs : List Char) : Option (List Char) :=
  match kw, cs with
  | [], rest => some rest
  | k :: ks, c :: rest => if c == k then dropKeyword ks rest else none
  | _ :: _, [] => none

/-- The literal keywords recognised by Python's scanner: the three JSON
keywords plus the non-standard `NaN`, `Infinity` and `-Infinity` that
`json.loads` accepts by default. -/
def keywordTable : List (List Char × Json) :=
  [("null".data, Json.null), ("true".data, Json.bool true), ("false".data, Json.bool false),
   ("NaN".data, Json.float .nan), ("Infinity".data, Json.float (.inf true)),
   ("-Infinity".data, Json.float (.inf false))]

/-- Try each keyword of a table in turn at the head of the input. -/
def tryKeywords : List (List Char × Json) → List Char → Option (Json × List Char)
  | [], _ => none
  | kv :: table, cs =>
    match dropKeyword kv.1 cs with
    | some remaining => some (kv.2, remaining)
    | none => tryKeywords table cs

/-- Recognise a JSON literal keyword at the head of the input. -/
def parseKeyword (cs : List Char) : Option (Json × List Char) :=
  tryKeywords keywordTable cs

mutual

/-- Recursive-descent parser for one JSON value.  `fuel` only bounds the
recursion depth; `loads` supplies enough fuel that it never runs out on its
input (each recursive call consumes at least one character every two
levels). -/
def parseValue : Nat → List Char → Option (Json × List Char)
  | 0, _ => none
  | fuel + 1, cs =>
    match skipJsonWs cs with
    | [] => none
    | c :: rest =>
      if c == '\"' then
        match parseStringBody [] rest with
        | some (s, rest') => some (.str s, rest')
        | none => none
      else if c == '[' then
        match skipJsonWs rest with
        | ']' :: rest' => some (.arr [], rest')
        | rest' =>
          match parseArrayItems fuel rest' with
          | some (xs, rest'') => some (.arr xs, rest'')
          | none => none
      else if c == lbraceChar then
        match skipJsonWs rest with
        | d :: rest' =>
          if d == rbraceChar then some (.obj [], rest')
          else
            match parseObjectItems fuel (d :: rest') with
            | some (entries, rest'') => some (.obj entries, rest'')
            | none => none
        | [] => none
      else
        match parseKeyword (c :: rest) with
        | some r => some r
        | none => parseNumber (c :: rest)

/-- One or more comma-separated array elements followed by a closing
bracket. -/
def parseArrayItems : Nat → List Char → Option (List Json × List Char)
  | 0, _ => none
  | fuel + 1, cs =>
    match parseValue fuel cs with
    | none => none
    | some (v, rest) =>
      match skipJsonWs rest with
      | ',' :: rest' =>
        match parseArrayItems fuel rest' with
        | some (vs, rest'') => some (v :: vs, rest'')
        | none => none
      | ']' :: rest' => some ([v], rest')
      | _ => none

/-- One or more comma-separated `"key": value` object members followed by a
closing brace; members are accumulated with `objInsert`. -/
def parseObjectItems : Nat → List Char → Option (List (String × Json) × List Char)
  | 0, _ => none
  | fuel + 1, cs =>
    match skipJsonWs cs with
    | c :: rest =>
      if c == '\"' then
        match parseStringBody [] rest with
        | none => none
        | some (k, rest') =>
          match skipJsonWs rest' with
          | ':' :: rest'' =>
            match parseValue fuel rest'' with
            | none => none
            | some (v, rest3) =>
              match skipJsonWs rest3 with
              | ',' :: rest4 =>
                match parseObjectItems fuel rest4 with
                | some (entries, rest5) => some (objInsert k v entries, rest5)
                | none => none
              | d :: rest4 =>
                if d == rbraceChar then some ([(k, v)], rest4) else none
              | [] => none
          | _ => none
      else none
    | [] => none

end

/-- Python `json.loads`: parse a complete JSON document, allowing surrounding
whitespace, refusing trailing garbage. -/
def loads (s : String) : Option Json :=
  match parseValue (2 * s.length + 2) s.data with
  | some (v, rest) => if skipJsonWs rest == [] then some v else none
  | none => none

/-- `worker/executor.py` — `_outputs_match(actual, expected)`: strip both
strings; exact match is a fast path; otherwise parse both as JSON and compare
the parsed documents, a parse failure on either side meaning mismatch. -/
def outputs_match (actual expected : String) : Bool :=
  let a := pyStrip actual
  let e := pyStrip expected
  if a == e then true
  else
    match loads a, loads e with
    | some va, some ve => jsonEq va ve
    | _, _ => false

/-! ### Execution engine (`worker/executor.py`, `worker/config.py`) -/

/-- `worker/config.py` — `ResourceLimits` (the fields the executor's verdict
logic reads; times are modelled in integer seconds/bytes exactly as the
defaults are written there). -/
structure ResourceLimits where
  timeout_per_test : Int
  max_stdout_bytes : Nat
  max_stderr_bytes : Nat
deriving DecidableEq, Repr

/-- `worker/config.py` — `DEFAULT_LIMITS = ResourceLimits()`. -/
def DEFAULT_LIMITS : ResourceLimits :=
  { timeout_per_test := 2, max_stdout_bytes := 1024 * 1024, max_stderr_bytes := 512 * 1024 }

/-- `worker/config.py` — `LanguageConfig` (the fields the executor reads;
`needs_compilation` is the property `compile_command is not None`). -/
structure LanguageConfig where
  slug : String
  needs_compilation : Bool
  strategy : ExecutionStrategy
deriving DecidableEq, Repr

/-- `worker/config.py` — the `LANGUAGES` table (slug, needs compilation,
strategy). -/
def LANGUAGES : List (String × LanguageConfig) :=
  [("python3", { slug := "python3", needs_compilation := false, strategy := .batch }),
   ("python", { slug := "python", needs_compilation := false, strategy := .batch }),
   ("java", { slug := "java", needs_compilation := true, strategy := .individual }),
   ("c", { slug := "c", needs_compilation := true, strategy := .individual })]

/-- ASCII lower-casing of one character. -/
def asciiLowerChar (c : Char) : Char :=
  if 'A' ≤ c && c ≤ 'Z' then Char.ofNat (c.toNat + 32) else c

/-- Python `slug.lower()`, restricted to ASCII (language slugs are ASCII). -/
def asciiLower (s : String) : String := String.mk (s.data.map asciiLowerChar)

/-- `worker/config.py` — `get_language(slug)`: case-insensitive lookup. -/
def get_language (slug : String) : Option LanguageConfig :=
  (LANGUAGES.find? (fun p => p.1 == asciiLower slug)).map (fun p => p.2)

/-- `worker/executor.py` — `TestResult`: result of running code against a
single test case. -/
structure TestResult where
  test_index : Nat
  status : ExecutionStatus
  stdout : String
  stderr : String
  exit_code : Int
  runtime_ms : Int
  memory_kb : Int
deriving DecidableEq, Repr

/-- `worker/executor.py` — `ExecutionResult`: aggregated result of running
code against all test cases. -/
structure ExecutionResult where
  status : ExecutionStatus
  test_results : List TestResult
  compilation_output : Option String
  total_runtime_ms : Int
  passed_count : Nat
  total_count : Nat
deriving DecidableEq, Repr

/-- The raw completion of one sandbox invocation as seen by
`_run_single_test`: either the process finished (with captured stdout, stderr
and exit code, taking `elapsed_ms` wall-clock milliseconds), or the
subprocess-level timeout fired. -/
inductive SandboxOutcome where
  | completed (stdout stderr : String) (exit_code : Int) (elapsed_ms : Int)
  | timedOut
deriving DecidableEq, Repr

/-- `worker/executor.py` — verdict branch of `_run_single_test`: non-zero
exit is a runtime error, otherwise the §4.3.1 comparison decides between
success and wrong answer. -/
def classify_individual (exit_code : Int) (stdout expected : String) : ExecutionStatus :=
  if exit_code != 0 then .runtime_error
  else if outputs_match stdout expected then .success
  else .wrong_answer

/-- `worker/executor.py` — `_run_single_test`: run one sandbox, strip the
captured stdout, classify, truncate outputs; the subprocess timeout is
reported as `TIME_LIMIT_EXCEEDED` with the synthetic exit code 124. -/
def run_single_test (limits : ResourceLimits) (index : Nat) (expected_output : String) :
    SandboxOutcome → TestResult
  | .completed out err code elapsed =>
    let stdout := pyStrip out
    { test_index := index
      status := classify_individual code stdout expected_output
      stdout := pyTake stdout limits.max_stdout_bytes
      stderr := pyTake err limits.max_stderr_bytes
      exit_code := code
      runtime_ms := elapsed
      memory_kb := 0 }
  | .timedOut =>
    { test_index := index
      status := .time_limit_exceeded
      stdout := ""
      stderr := "Time limit exceeded"
      exit_code := 124
      runtime_ms := limits.timeout_per_test * 1000
      memory_kb := 0 }

/-- One raw per-test record decoded from the batch runner's JSON output; all
keys are optional, mirroring the `raw.get(..., default)` reads in
`_parse_batch_results`. -/
structure RawBatchRecord where
  index : Option Nat
  stdout : Option String
  stderr : Option String
  exit_code : Option Int
  runtime_ms : Option Int
  memory_kb : Option Int
deriving DecidableEq, Repr

/-- `worker/executor.py` — loop body of `_parse_batch_results` for one raw
record, where `pos` is `len(results)` so far (the default test index):
exit code 124 means timeout, any other non-zero exit a runtime error,
otherwise the output comparison decides — except that an index at or beyond
the expected-output list falls to the final `else` branch and is marked
`SUCCESS` without any comparison. -/
def batchRecord (limits : ResourceLimits) (expected_outputs : List String) (pos : Nat)
    (raw : RawBatchRecord) : TestResult :=
  let index := raw.index.getD pos
  let stdout := pyStrip (raw.stdout.getD "")
  let stderr := raw.stderr.getD ""
  let exit_code := raw.exit_code.getD 0
  let status : ExecutionStatus :=
    if exit_code == 124 then .time_limit_exceeded
    else if exit_code != 0 then .runtime_error
    else if h : index < expected_outputs.length then
      if outputs_match stdout (expected_outputs.get ⟨index, h⟩) then .success
      else .wrong_answer
    else .success
  { test_index := index
    status := status
    stdout := pyTake stdout limits.max_stdout_bytes
    stderr := pyTake stderr limits.max_stderr_bytes
    exit_code := exit_code
    runtime_ms := raw.runtime_ms.getD 0
    memory_kb := raw.memory_kb.getD 0 }

/-- `worker/executor.py` — `_parse_batch_results`: fold `batchRecord` over the
raw records, appending to the accumulated result list. -/
def parse_batch_results (limits : ResourceLimits) (raw_results : List RawBatchRecord)
    (expected_outputs : List String) : List TestResult :=
  raw_results.foldl (fun acc raw => acc ++ [batchRecord limits expected_outputs acc.length raw]) []

/-- `worker/executor.py` — `_build_result`: count passed tests and aggregate a
final status with precedence TLE > runtime error > wrong answer, all-passed
meaning success. -/
def build_result (test_results : List TestResult) (total_runtime : Int) : ExecutionResult :=
  let passed_count := (test_results.filter (fun r => r.status == .success)).length
  let status : ExecutionStatus :=
    if passed_count == test_results.length then .success
    else if test_results.any (fun r => r.status == .time_limit_exceeded) then .time_limit_exceeded
    else if test_results.any (fun r => r.status == .runtime_error) then .runtime_error
    else .wrong_answer
  { status := status
    test_results := test_results
    compilation_output := none
    total_runtime_ms := total_runtime
    passed_count := passed_count
    total_count := test_results.length }

/-- `worker/executor.py` — `_error_result(message, test_count)`: the
`INTERNAL_ERROR` result used for an unsupported language. -/
def error_result (message : String) (test_count : Nat) : ExecutionResult :=
  { status := .internal_error
    test_results := []
    compilation_output := some message
    total_runtime_ms := 0
    passed_count := 0
    total_count := test_count }

/-- `worker/executor.py` — `_create_error_results`: one uniform error record
per test input. -/
def create_error_results (test_count : Nat) (status : ExecutionStatus) (message : String) :
    List TestResult :=
  (List.range test_count).map (fun i =>
    { test_index := i, status := status, stdout := "", stderr := message,
      exit_code := 1, runtime_ms := 0, memory_kb := 0 })

/-- Raw completion of the compilation sandbox run, as observed by
`_compile`: normal completion carries the process exit code and both output
streams; the compilation timeout and any other raised exception are the two
`except` branches. -/
inductive CompileOutcome where
  | completed (exit_code : Int) (stdoutS stderrS : String)
  | timedOut
  | raised (msg : String)
deriving DecidableEq, Repr

/-- `worker/executor.py` — `_compile` (for a language whose
`compile_command` is set): returns `(success, output)`; on a non-zero exit
the error text is `stderr or stdout or "Compilation failed"` truncated to
2000 characters. -/
def compileStep : CompileOutcome → Bool × String
  | .completed code outS errS =>
    if code != 0 then
      let error := if errS != "" then errS else if outS != "" then outS else "Compilation failed"
      (false, pyTake error 2000)
    else (true, outS)
  | .timedOut => (false, "Compilation timed out")
  | .raised msg => (false, msg)

/-- Raw completion of the single batched sandbox run performed by
`_execute_batch`: a finished `docker run` carries an exit code, the runner's
stdout already decoded from JSON when that decoding succeeds (`none` models a
`json.JSONDecodeError`), and the captured stderr; or the total-timeout
subprocess exception fired. -/
inductive BatchRunOutcome where
  | completed (exit_code : Int) (decoded : Option (List RawBatchRecord)) (stderrS : String)
  | timedOut
deriving DecidableEq, Repr

/-- `worker/executor.py` — `_execute_batch`: one sandbox run for all tests;
an exit code of zero with decodable JSON output defers to
`_parse_batch_results`, undecodable output yields uniform `INTERNAL_ERROR`
records, a non-zero exit uniform `RUNTIME_ERROR` records, and the total
timeout uniform `TIME_LIMIT_EXCEEDED` records. -/
def execute_batch (limits : ResourceLimits) (test_count : Nat)
    (expected_outputs : List String) : BatchRunOutcome → List TestResult
  | .completed code decoded errS =>
    if code == 0 then
      match decoded with
      | some raws => parse_batch_results limits raws expected_outputs
      | none => create_error_results test_count .internal_error (pyTake errS 500)
    else create_error_results test_count .runtime_error (pyTake errS 500)
  | .timedOut => create_error_results test_count .time_limit_exceeded "Total time limit exceeded"

/-- `worker/executor.py` — loop of `_execute_individual` over the zipped
(input, expected) pairs, with the remaining-time budget in milliseconds:
an exhausted budget reports the remaining tests `TIME_LIMIT_EXCEEDED` with
exit code 124 without launching them; otherwise `_run_single_test` runs and
its runtime is charged against the budget.  The sandbox outcome of the test
at each position is supplied by `runs` (the list is as long as the test
list; extra entries are ignored). -/
def execute_individual_go (limits : ResourceLimits) :
    Int → Nat → List (String × SandboxOutcome) → List TestResult
  | _, _, [] => []
  | remaining_ms, index, (expected, run) :: rest =>
    if remaining_ms ≤ 0 then
      { test_index := index, status := .time_limit_exceeded, stdout := "",
        stderr := "Time limit exceeded", exit_code := 124, runtime_ms := 0, memory_kb := 0 }
        :: execute_individual_go limits remaining_ms (index + 1) rest
    else
      let r := run_single_test limits index expected run
      r :: execute_individual_go limits (remaining_ms - r.runtime_ms) (index + 1) rest

/-- `worker/executor.py` — `_execute_individual`. -/
def execute_individual (limits : ResourceLimits) (total_timeout_ms : Int)
    (expected_outputs : List String) (runs : List SandboxOutcome) : List TestResult :=
  execute_individual_go limits total_timeout_ms 0 (expected_outputs.zip runs)

/-- The sandbox activity consumed by one `execute` call: the outcome of the
compilation run (if the language compiles) and of the test runs under either
strategy. -/
structure SandboxEnv where
  compileOutcome : CompileOutcome
  batchOutcome : BatchRunOutcome
  individualRuns : List SandboxOutcome
  total_timeout_ms : Int
  wall_ms : Int
deriving Repr

/-- `worker/executor.py` — strategy dispatch of `_execute_tests`. -/
def execute_tests (limits : ResourceLimits) (language : LanguageConfig)
    (test_inputs expected_outputs : List String) (env : SandboxEnv) : List TestResult :=
  match language.strategy with
  | .batch => execute_batch limits test_inputs.length expected_outputs env.batchOutcome
  | .individual =>
    execute_individual limits env.total_timeout_ms
      (expected_outputs.take (min test_inputs.length expected_outputs.length)) env.individualRuns

/-- `worker/executor.py` — `DockerExecutor.execute`: resolve the language
(unknown slug short-circuits to `_error_result`), compile when required (a
failed compilation short-circuits to a `COMPILATION_ERROR` result with empty
per-test results), then run the tests and aggregate with `_build_result`. -/
def executeModel (limits : ResourceLimits) (language_slug : String)
    (test_inputs expected_outputs : List String) (env : SandboxEnv) : ExecutionResult :=
  match get_language language_slug with
  | none => error_result ("Unsupported language: " ++ language_slug) test_inputs.length
  | some language =>
    if language.needs_compilation then
      match compileStep env.compileOutcome with
      | (false, output) =>
        { status := .compilation_error
          test_results := []
          compilation_output := some output
          total_runtime_ms := env.wall_ms
          passed_count := 0
          total_count := test_inputs.length }
      | (true, _) =>
        build_result (execute_tests limits language test_inputs expected_outputs env) env.wall_ms
    else
      build_result (execute_tests limits language test_inputs expected_outputs env) env.wall_ms

/-! ### Judging service (`app/services/judge_queue.py`) and submission rows -/

/-- `app/services/judge_queue.py` — `STATUS_MAP` together with the
`.get(..., SubmissionStatus.RUNTIME_ERROR)` default used at its sole read
site; the dictionary covers every `ExecutionStatus` member, so the default is
never reached. -/
def STATUS_MAP : ExecutionStatus → SubmissionStatus
  | .success => .accepted
  | .wrong_answer => .wrong_answer
  | .time_limit_exceeded => .time_limit_exceeded
  | .memory_limit_exceeded => .memory_limit_exceeded
  | .runtime_error => .runtime_error
  | .compilation_error => .compilation_error
  | .internal_error => .runtime_error

/-- One cached test case, the dictionaries built by `get_test_cases` in
`app/services/judge_queue.py`. -/
structure TestCaseRec where
  id : Nat
  input : String
  expected_output : String
  order : Nat
  is_hidden : Bool
deriving DecidableEq, Repr

/-- One per-test dictionary of a submission's persisted `results` list, as
built by `_process_results`; the four I/O fields are `Option`s because the
corresponding keys are only added for visible test cases (and `stderr` only
when non-empty). -/
structure ResultDetail where
  test_case_id : Nat
  order : Nat
  is_hidden : Bool
  status : ExecutionStatus
  runtime_ms : Int
  memory_kb : Int
  exit_code : Int
  input : Option String
  expected_output : Option String
  actual_output : Option String
  stderr : Option String
deriving DecidableEq, Repr

/-- An entry of the persisted `results` JSON list: a per-test detail record,
the `compilation_error` record prepended by `_process_results`, or the
`error` record written by `_fail_submission` and the worker's exception
handler. -/
inductive ResultEntry where
  | test (d : ResultDetail)
  | compilationErrorRec (msg : String)
  | errorRec (msg : String)
deriving DecidableEq, Repr

/-- `app/models/submission.py` — the mutable judging fields of a
`Submission` row (`results` is a nullable JSON column). -/
structure Submission where
  status : SubmissionStatus
  passed : Bool
  passed_count : Nat
  total_count : Nat
  results : Option (List ResultEntry)
deriving DecidableEq, Repr

/-- `app/services/submission_service.py` — the row inserted by
`create_submission`: status `PENDING`, `total_count` the number of cached
test cases, and the column defaults `passed=false`, `passed_count=0`,
`results=NULL` from `app/models/submission.py`. -/
def createdSubmission (test_count : Nat) : Submission :=
  { status := .pending
    passed := false
    passed_count := 0
    total_count := test_count
    results := none }

/-- `app/services/judge_queue.py` — loop body of `_process_results`: the
detail dictionary for one (test case, test result) pair.  The I/O fields are
set only for visible cases, each truncated to 500 characters, and `stderr`
only when the captured stderr is non-empty (the `if test_result.stderr:`
truthiness guard). -/
def buildDetail (tc : TestCaseRec) (tr : TestResult) : ResultDetail :=
  { test_case_id := tc.id
    order := tc.order
    is_hidden := tc.is_hidden
    status := tr.status
    runtime_ms := tr.runtime_ms
    memory_kb := tr.memory_kb
    exit_code := tr.exit_code
    input := if tc.is_hidden then none else some (pyTake tc.input 500)
    expected_output := if tc.is_hidden then none else some (pyTake tc.expected_output 500)
    actual_output := if tc.is_hidden then none else some (pyTake tr.stdout 500)
    stderr :=
      if tc.is_hidden then none
      else if tr.stderr != "" then some (pyTake tr.stderr 500)
      else none }

/-- `app/services/judge_queue.py` — `_process_results`: zip the test cases
with the per-test results, update the submission's status (via `STATUS_MAP`),
`passed`, counters and `results`, and prepend a `compilation_error` record
when the execution result carries non-empty compilation output. -/
def process_results (s : Submission) (test_cases : List TestCaseRec)
    (exec_result : ExecutionResult) : Submission :=
  let results := (test_cases.zip exec_result.test_results).map
    (fun p => ResultEntry.test (buildDetail p.1 p.2))
  let base : Submission :=
    { s with
      status := STATUS_MAP exec_result.status
      passed := exec_result.status == .success
      passed_count := exec_result.passed_count
      total_count := exec_result.total_count
      results := some results }
  match exec_result.compilation_output with
  | some output =>
    if output != "" then
      { base with results := some (.compilationErrorRec (pyTake output 2000) :: results) }
    else base
  | none => base

/-- `app/services/judge_queue.py` — `_accept_submission` (problems with no
test cases). -/
def accept_submission (s : Submission) : Submission :=
  { s with
    status := .accepted
    passed := true
    passed_count := 0
    total_count := 0
    results := some [] }

/-- `app/services/judge_queue.py` — `_fail_submission`. -/
def fail_submission (s : Submission) (error : String) : Submission :=
  { s with
    status := .runtime_error
    passed := false
    results := some [.errorRec error] }

/-- `app/services/judge_queue.py` — `judge_submission` after the initial
commit of status `RUNNING`: an empty test-case list accepts trivially, a
missing language row fails the submission, otherwise the execution result is
processed.  `langFound` models whether the `Language` row of the
submission's `language_id` exists; `exec_result` is the value returned by
`run_code`. -/
def judge_submission (s : Submission) (test_cases : List TestCaseRec)
    (langFound : Bool) (exec_result : ExecutionResult) : Submission :=
  let s := { s with status := SubmissionStatus.running }
  if test_cases.isEmpty then accept_submission s
  else if !langFound then fail_submission s "Language not found"
  else process_results s test_cases exec_result

/-- `worker/judge_worker.py` — the `except` branch of `JudgeWorker._process`:
set status `RUNTIME_ERROR` and overwrite `results` with a single `error`
record; the `passed` column is left untouched. -/
def worker_exception_update (s : Submission) (msg : String) : Submission :=
  { s with
    status := .runtime_error
    results := some [.errorRec msg] }

/-- What happens to one submission while the worker judges it: either
`judge_submission` runs to completion with the given inputs, or an exception
is raised during judging and the worker's handler runs. -/
inductive JudgeOutcome where
  | ran (test_cases : List TestCaseRec) (langFound : Bool) (exec_result : ExecutionResult)
  | raised (msg : String)
deriving Repr

/-- `worker/judge_worker.py` — delivery of one submission to the worker:
`_get_pending` only fetches rows whose status is `PENDING`
(`filter(Submission.status == SubmissionStatus.PENDING)`), so a submission in
any other state is skipped untouched; a fetched submission is processed by
`_process`, whose `try` runs `judge_submission` and whose `except` branch
runs `worker_exception_update`. -/
def worker_deliver (s : Submission) (o : JudgeOutcome) : Submission :=
  if s.status != .pending then s
  else
    match o with
    | .ran test_cases langFound exec_result => judge_submission s test_cases langFound exec_result
    | .raised msg => worker_exception_update { s with status := SubmissionStatus.running } msg

/-! ### Submission creation (`app/services/submission_service.py`,
`app/api/routes/submissions.py`) -/

/-- `app/models/language.py` — the fields of a `Language` row read during
submission creation. -/
structure LanguageRow where
  id : Nat
  slug : String
  is_active : Bool
deriving DecidableEq, Repr

/-- `app/schemas/submission.py` — `SubmissionCreate`. -/
structure SubmissionCreate where
  problem_id : Nat
  language_id : Nat
  code : String
deriving DecidableEq, Repr

/-- The application state visible to submission creation: problem ids,
language rows, the authoritative per-problem test-case lists (as returned by
the relational query of `get_test_cases`, i.e. already ordered by `order`
ascending), the in-memory `_test_case_cache` of
`app/services/judge_queue.py`, the submission rows keyed by id, and the next
fresh row id. -/
structure AppDb where
  problems : List Nat
  languages : List LanguageRow
  testCaseStore : List (Nat × List TestCaseRec)
  cache : List (Nat × List TestCaseRec)
  submissions : List (Nat × Submission)
  nextId : Nat
deriving DecidableEq, Repr

/-- Association-list lookup. -/
def assocFind {α : Type} (l : List (Nat × α)) (k : Nat) : Option α :=
  (l.find? (fun p => p.1 == k)).map (fun p => p.2)

/-- Association-list insert/overwrite. -/
def assocPut {α : Type} (l : List (Nat × α)) (k : Nat) (v : α) : List (Nat × α) :=
  match l with
  | [] => [(k, v)]
  | (k', v') :: rest => if k' == k then (k, v) :: rest else (k', v') :: assocPut rest k v

/-- `app/services/judge_queue.py` — `get_test_cases(db, problem_id,
force_refresh)`: serve from `_test_case_cache` unless refreshing or missing,
otherwise query the store ordered by `order` and fill the cache.  Returns the
list and the updated state. -/
def get_test_cases (db : AppDb) (problem_id : Nat) (force_refresh : Bool) :
    List TestCaseRec × AppDb :=
  match assocFind db.cache problem_id with
  | some cached => if force_refresh then refreshFrom db problem_id else (cached, db)
  | none => refreshFrom db problem_id
where
  refreshFrom (db : AppDb) (problem_id : Nat) : List TestCaseRec × AppDb :=
    let fetched := (assocFind db.testCaseStore problem_id).getD []
    (fetched, { db with cache := assocPut db.cache problem_id fetched })

/-- `app/services/submission_service.py` — `SubmissionServiceError`, by the
HTTP status it carries: 404 for a missing problem/language, 400 for an
inactive language (the spec's `NOT_FOUND` and `UNSUPPORTED_LANGUAGE`). -/
inductive SubmissionServiceError where
  | notFound (detail : String)
  | badRequest (detail : String)
deriving DecidableEq, Repr

/-- `app/services/submission_service.py` — `create_submission`: validate the
problem, then the language and its `is_active` flag, raising before any write
on failure; on success read the cached test cases and insert a `PENDING` row.
Returns the outcome together with the resulting state (unchanged on
error). -/
def create_submission (db : AppDb) (data : SubmissionCreate) :
    Except SubmissionServiceError (Nat × List TestCaseRec) × AppDb :=
  if !db.problems.contains data.problem_id then
    (.error (.notFound "Problem not found"), db)
  else
    match db.languages.find? (fun L => L.id == data.language_id) with
    | none => (.error (.notFound "Language not found"), db)
    | some language =>
      if !language.is_active then
        (.error (.badRequest "Language not supported"), db)
      else
        let (test_cases, db) := get_test_cases db data.problem_id false
        let id := db.nextId
        (.ok (id, test_cases),
         { db with
           submissions := db.submissions ++ [(id, createdSubmission test_cases.length)]
           nextId := db.nextId + 1 })

/-- `app/api/routes/submissions.py` — `submitCode`: call the service and, on
success, schedule the new submission id for background judging (the pending
judging jobs are modelled as a FIFO list, to which `backgroundTasks.add_task
(judgeInBackground, submission.id)` appends); on a service error the state
and the job list are unchanged. -/
def submitCode (db : AppDb) (jobs : List Nat) (data : SubmissionCreate) :
    Except SubmissionServiceError Nat × AppDb × List Nat :=
  match create_submission db data with
  | (.error e, db') => (.error e, db', jobs)
  | (.ok (id, _), db') => (.ok id, db', jobs ++ [id])

/-! ### Spec-side definition used for the refinement comparison of the
aggregation claim -/

/-- Follows the words of spec §4.3 step 7, not the source: all tests passed
means `SUCCESS`; otherwise any `TIME_LIMIT_EXCEEDED` wins, then any
`RUNTIME_ERROR`, else `WRONG_ANSWER`. -/
def specAggregateStatus (test_results : List TestResult) : ExecutionStatus :=
  if test_results.all (fun r => r.status == .success) then .success
  else if test_results.any (fun r => r.status == .time_limit_exceeded) then .time_limit_exceeded
  else if test_results.any (fun r => r.status == .runtime_error) then .runtime_error
  else .wrong_answer

/-- Spec §8 invariant 3: `passed = true ⇔ status = ACCEPTED`. -/
def passedInvariant (s : Submission) : Prop :=
  s.passed = true ↔ s.status = SubmissionStatus.accepted

instance (s : Submission) : Decidable (passedInvariant s) := by
  unfold passedInvariant; infer_instance

end Judge

namespace Judge

/-! ## Theorems -/


/-- The all-passed test of `_build_result` (`passed_count == len(results)`)
coincides with "every test has status SUCCESS". -/
theorem filter_success_length_eq_iff (trs : List TestResult) :
    ((trs.filter (fun r => r.status == ExecutionStatus.success)).length == trs.length) = true ↔
      trs.all (fun r => r.status == ExecutionStatus.success) = true := by
  rw [beq_iff_eq, List.filter_length_eq_length, List.all_eq_true]

/-- `_process_results` always persists `STATUS_MAP` of the engine status:
the compilation-output prepend only changes `results`. -/
theorem process_results_status (s : Submission) (tcs : List TestCaseRec)
    (er : ExecutionResult) : (process_results s tcs er).status = STATUS_MAP er.status := by
  simp only [process_results]
  rcases er.compilation_output with _ | out
  · rfl
  · by_cases hout : (out != "") = true
    · simp [hout]
    · simp [hout]

/-- `_process_results` always persists `passed = (engine status == SUCCESS)`. -/
theorem process_results_passed (s : Submission) (tcs : List TestCaseRec)
    (er : ExecutionResult) :
    (process_results s tcs er).passed = (er.status == ExecutionStatus.success) := by
  simp only [process_results]
  rcases er.compilation_output with _ | out
  · rfl
  · by_cases hout : (out != "") = true
    · simp [hout]
    · simp [hout]

/-- `STATUS_MAP` sends exactly `SUCCESS` to `ACCEPTED`. -/
theorem STATUS_MAP_eq_accepted_iff (e : ExecutionStatus) :
    STATUS_MAP e = SubmissionStatus.accepted ↔ e = ExecutionStatus.success := by
  cases e <;> simp [STATUS_MAP]

/-- `STATUS_MAP` never yields `PENDING`. -/
theorem STATUS_MAP_ne_pending (e : ExecutionStatus) :
    STATUS_MAP e ≠ SubmissionStatus.pending := by
  cases e <;> simp [STATUS_MAP]

/-- The status written by `judge_submission` is never `PENDING`: every branch
ends in a terminal status (`_accept_submission`, `_fail_submission`, or
`STATUS_MAP` via `_process_results`). -/
theorem judge_submission_status_ne_pending (s : Submission) (tcs : List TestCaseRec)
    (langFound : Bool) (er : ExecutionResult) :
    (judge_submission s tcs langFound er).status ≠ SubmissionStatus.pending := by
  simp only [judge_submission]
  by_cases htc : tcs.isEmpty = true
  · simp [htc, accept_submission]
  · by_cases hl : langFound = true
    · simp only [htc, hl]
      simp only [Bool.not_true, Bool.false_eq_true, if_false, if_true]
      rw [process_results_status]
      exact STATUS_MAP_ne_pending er.status
    · simp only [htc, Bool.not_eq_true] at hl
      simp [htc, hl, fail_submission]

/-- C2: for every list of per-test results, `_build_result` returns
`passed_count` equal to the number of tests with status `SUCCESS`,
`total_count` equal to the length of the list, and the aggregate status
computed by the spec's precedence (all passed → SUCCESS, else any TLE, else
any runtime error, else wrong answer). -/
theorem build_result_aggregates (trs : List TestResult) (total_runtime : Int) :
    (build_result trs total_runtime).passed_count =
        trs.countP (fun r => r.status == ExecutionStatus.success) ∧
    (build_result trs total_runtime).total_count = trs.length ∧
    (build_result trs total_runtime).status = specAggregateStatus trs := by
  refine ⟨by simp [build_result, List.countP_eq_length_filter], rfl, ?_⟩
  simp only [build_result, specAggregateStatus]
  by_cases hall : trs.all (fun r => r.status == ExecutionStatus.success) = true
  · rw [if_pos ((filter_success_length_eq_iff trs).mpr hall), if_pos hall]
  · have h1 : ¬ (((trs.filter (fun r => r.status == ExecutionStatus.success)).length
        == trs.length) = true) :=
      fun h => hall ((filter_success_length_eq_iff trs).mp h)
    rw [if_neg h1, if_neg hall]

/-- C7: `STATUS_MAP` realises exactly the specified table, `_process_results`
persists `STATUS_MAP` of the engine status, and an engine result built for an
unknown language (`_error_result`, status `INTERNAL_ERROR`) is persisted as
`RUNTIME_ERROR`. -/
theorem status_map_table :
    STATUS_MAP .success = .accepted ∧
    STATUS_MAP .wrong_answer = .wrong_answer ∧
    STATUS_MAP .time_limit_exceeded = .time_limit_exceeded ∧
    STATUS_MAP .memory_limit_exceeded = .memory_limit_exceeded ∧
    STATUS_MAP .runtime_error = .runtime_error ∧
    STATUS_MAP .compilation_error = .compilation_error ∧
    STATUS_MAP .internal_error = .runtime_error ∧
    (∀ (s : Submission) (tcs : List TestCaseRec) (er : ExecutionResult),
      (process_results s tcs er).status = STATUS_MAP er.status) ∧
    (∀ (limits : ResourceLimits) (slug : String) (ins outs : List String) (env : SandboxEnv)
        (s : Submission) (tcs : List TestCaseRec),
      get_language slug = none →
        (process_results s tcs (executeModel limits slug ins outs env)).status
          = SubmissionStatus.runtime_error) := by
  refine ⟨rfl, rfl, rfl, rfl, rfl, rfl, rfl, process_results_status, ?_⟩
  intro limits slug ins outs env s tcs hnone
  simp only [executeModel, hnone]
  rw [process_results_status]
  rfl

/-- Witness for the unknown-language conjunct of `status_map_table`: the slug
"ruby" is not in the language table, and a submission judged with its engine
result is persisted as `RUNTIME_ERROR`. -/
theorem status_map_table_witness :
    get_language "ruby" = none ∧
    (process_results (createdSubmission 1) []
        (executeModel DEFAULT_LIMITS "ruby" ["1"] ["1"]
          ⟨.timedOut, .timedOut, [], 0, 0⟩)).status = SubmissionStatus.runtime_error :=
  ⟨rfl, status_map_table.2.2.2.2.2.2.2.2 DEFAULT_LIMITS "ruby" ["1"] ["1"]
    ⟨.timedOut, .timedOut, [], 0, 0⟩ (createdSubmission 1) [] rfl⟩

/-- A truncated string has at most `n` characters. -/
theorem pyTake_length_le (s : String) (n : Nat) : (pyTake s n).length ≤ n := by
  show (s.data.take n).length ≤ n
  rw [List.length_take]
  exact min_le_left _ _

/-- The per-test entries persisted by `_process_results`: the detail record
of every (test case, test result) pair, in order. -/
def detailEntries (tcs : List TestCaseRec) (trs : List TestResult) : List ResultEntry :=
  (tcs.zip trs).map (fun p => ResultEntry.test (buildDetail p.1 p.2))

/-- The `results` list persisted by `_process_results`: the detail entries,
with a `compilation_error` record prepended when the engine reported
non-empty compilation output. -/
theorem process_results_results (s : Submission) (tcs : List TestCaseRec)
    (er : ExecutionResult) :
    (process_results s tcs er).results =
      match er.compilation_output with
      | some out =>
        if (out != "") = true then
          some (.compilationErrorRec (pyTake out 2000) :: detailEntries tcs er.test_results)
        else some (detailEntries tcs er.test_results)
      | none => some (detailEntries tcs er.test_results) := by
  simp only [process_results, detailEntries]
  rcases er.compilation_output with _ | out
  · rfl
  · by_cases hout : (out != "") = true
    · simp [hout]
    · simp [hout]

/-- C1 (amended): every per-test entry persisted by `_process_results` is the
detail record of a zipped (test case, test result) pair; that record copies
the seven metadata fields; for a hidden test case none of `input`,
`expected_output`, `actual_output`, `stderr` is present; for a visible test
case `input`, `expected_output` and `actual_output` are present (each
truncated to at most 500 characters), while `stderr` is present (truncated to
500) exactly when the captured stderr is non-empty. -/
theorem results_entry_fields :
    (∀ (s : Submission) (tcs : List TestCaseRec) (er : ExecutionResult)
        (l : List ResultEntry) (d : ResultDetail),
      (process_results s tcs er).results = some l → ResultEntry.test d ∈ l →
        ∃ p, p ∈ tcs.zip er.test_results ∧ d = buildDetail p.1 p.2) ∧
    (∀ (tc : TestCaseRec) (tr : TestResult),
      (buildDetail tc tr).test_case_id = tc.id ∧
      (buildDetail tc tr).order = tc.order ∧
      (buildDetail tc tr).is_hidden = tc.is_hidden ∧
      (buildDetail tc tr).status = tr.status ∧
      (buildDetail tc tr).runtime_ms = tr.runtime_ms ∧
      (buildDetail tc tr).memory_kb = tr.memory_kb ∧
      (buildDetail tc tr).exit_code = tr.exit_code) ∧
    (∀ (tc : TestCaseRec) (tr : TestResult), tc.is_hidden = true →
      (buildDetail tc tr).input = none ∧
      (buildDetail tc tr).expected_output = none ∧
      (buildDetail tc tr).actual_output = none ∧
      (buildDetail tc tr).stderr = none) ∧
    (∀ (tc : TestCaseRec) (tr : TestResult), tc.is_hidden = false →
      (buildDetail tc tr).input = some (pyTake tc.input 500) ∧
      (buildDetail tc tr).expected_output = some (pyTake tc.expected_output 500) ∧
      (buildDetail tc tr).actual_output = some (pyTake tr.stdout 500) ∧
      (buildDetail tc tr).stderr =
        (if (tr.stderr != "") = true then some (pyTake tr.stderr 500) else none) ∧
      (pyTake tc.input 500).length ≤ 500 ∧
      (pyTake tc.expected_output 500).length ≤ 500 ∧
      (pyTake tr.stdout 500).length ≤ 500 ∧
      (pyTake tr.stderr 500).length ≤ 500) := by
  refine ⟨?_, ?_, ?_, ?_⟩
  · intro s tcs er l d hl hd
    rw [process_results_results] at hl
    have hmem : ResultEntry.test d ∈ detailEntries tcs er.test_results := by
      split at hl
      · split at hl
        · obtain rfl := Option.some.inj hl
          rcases List.mem_cons.mp hd with h | h
          · exact absurd h (by simp)
          · exact h
        · obtain rfl := Option.some.inj hl
          exact hd
      · obtain rfl := Option.some.inj hl
        exact hd
    rcases List.mem_map.mp hmem with ⟨p, hp, hpe⟩
    refine ⟨p, hp, ?_⟩
    injection hpe with h
    exact h.symm
  · intro tc tr
    exact ⟨rfl, rfl, rfl, rfl, rfl, rfl, rfl⟩
  · intro tc tr h
    simp [buildDetail, h]
  · intro tc tr h
    refine ⟨by simp [buildDetail, h], by simp [buildDetail, h], by simp [buildDetail, h],
      ?_, pyTake_length_le _ _, pyTake_length_le _ _, pyTake_length_le _ _,
      pyTake_length_le _ _⟩
    by_cases hs : (tr.stderr != "") = true <;> simp [buildDetail, h, hs]

/-- Counterexample to C1 as stated: for a visible test case whose run
produced empty stderr (the normal case for a passing test), the persisted
entry does not contain the `stderr` field — the code only adds it when the
captured stderr is non-empty, while the claim asserts all four I/O fields are
present for every visible case. -/
theorem visible_empty_stderr_absent :
    (process_results (createdSubmission 1) [(⟨7, "in", "out", 0, false⟩ : TestCaseRec)]
      (build_result [(⟨0, .success, "out", "", 0, 3, 0⟩ : TestResult)] 3)).results =
      some [ResultEntry.test (buildDetail (⟨7, "in", "out", 0, false⟩ : TestCaseRec)
        (⟨0, .success, "out", "", 0, 3, 0⟩ : TestResult))] ∧
    (buildDetail (⟨7, "in", "out", 0, false⟩ : TestCaseRec)
        (⟨0, .success, "out", "", 0, 3, 0⟩ : TestResult)).is_hidden = false ∧
    (buildDetail (⟨7, "in", "out", 0, false⟩ : TestCaseRec)
        (⟨0, .success, "out", "", 0, 3, 0⟩ : TestResult)).stderr = none :=
  ⟨rfl, rfl, rfl⟩

/-- Witness for `results_entry_fields`: the hidden and visible branches at
concrete test cases. -/
theorem results_entry_fields_witness :
    ((buildDetail (⟨1, "i", "o", 0, true⟩ : TestCaseRec)
        (⟨0, .success, "o", "e", 0, 1, 0⟩ : TestResult)).input = none ∧
      (buildDetail (⟨1, "i", "o", 0, true⟩ : TestCaseRec)
        (⟨0, .success, "o", "e", 0, 1, 0⟩ : TestResult)).expected_output = none ∧
      (buildDetail (⟨1, "i", "o", 0, true⟩ : TestCaseRec)
        (⟨0, .success, "o", "e", 0, 1, 0⟩ : TestResult)).actual_output = none ∧
      (buildDetail (⟨1, "i", "o", 0, true⟩ : TestCaseRec)
        (⟨0, .success, "o", "e", 0, 1, 0⟩ : TestResult)).stderr = none) ∧
    (buildDetail (⟨2, "i", "o", 1, false⟩ : TestCaseRec)
        (⟨1, .success, "o", "e", 0, 1, 0⟩ : TestResult)).input = some (pyTake "i" 500) :=
  ⟨results_entry_fields.2.2.1 ⟨1, "i", "o", 0, true⟩ ⟨0, .success, "o", "e", 0, 1, 0⟩ rfl,
   (results_entry_fields.2.2.2 ⟨2, "i", "o", 1, false⟩
      ⟨1, .success, "o", "e", 0, 1, 0⟩ rfl).1⟩

/-- C5: `passed = true ⇔ status = ACCEPTED` holds for a freshly created
submission row and after every judging update: `_process_results` (for any
engine result), `_accept_submission`, `_fail_submission`, and the worker's
exception handler — the handler does not touch the `passed` column, so for it
the invariant rests on the incoming row having `passed = false`, which holds
for every row the worker fetches (rows are created with `passed = false` and
only ever set `passed = true` together with status `ACCEPTED`). -/
theorem passed_iff_accepted :
    (∀ n, passedInvariant (createdSubmission n)) ∧
    (∀ s, passedInvariant (accept_submission s)) ∧
    (∀ s e, passedInvariant (fail_submission s e)) ∧
    (∀ s tcs er, passedInvariant (process_results s tcs er)) ∧
    (∀ s m, s.passed = false → passedInvariant (worker_exception_update s m)) := by
  refine ⟨?_, ?_, ?_, ?_, ?_⟩
  · intro n
    simp [passedInvariant, createdSubmission]
  · intro s
    simp [passedInvariant, accept_submission]
  · intro s e
    simp [passedInvariant, fail_submission]
  · intro s tcs er
    unfold passedInvariant
    rw [process_results_status, process_results_passed]
    rw [STATUS_MAP_eq_accepted_iff]
    simp
  · intro s m h
    simp [passedInvariant, worker_exception_update, h]

/-- Witness for `passed_iff_accepted`: the exception handler applied to a
freshly created (hence `passed = false`) row restores the invariant. -/
theorem passed_iff_accepted_witness :
    (createdSubmission 2).passed = false ∧
    passedInvariant (worker_exception_update (createdSubmission 2) "boom") :=
  ⟨rfl, passed_iff_accepted.2.2.2.2 (createdSubmission 2) "boom" rfl⟩

/-- C6: a submission whose status is not `PENDING` (in particular one in a
terminal state) is never fetched by the worker's `_get_pending` query, so
delivering it changes no field; and since every judging run leaves a
non-`PENDING` status, delivering the same submission twice performs exactly
one judging run — the second delivery is a no-op. -/
theorem worker_deliver_skips_and_idempotent :
    (∀ (s : Submission) (o : JudgeOutcome),
      s.status ≠ SubmissionStatus.pending → worker_deliver s o = s) ∧
    (∀ (s : Submission) (o o' : JudgeOutcome),
      worker_deliver (worker_deliver s o) o' = worker_deliver s o) := by
  have hskip : ∀ (s : Submission) (o : JudgeOutcome),
      s.status ≠ SubmissionStatus.pending → worker_deliver s o = s := by
    intro s o h
    simp [worker_deliver, h]
  refine ⟨hskip, ?_⟩
  intro s o o'
  by_cases h : s.status = SubmissionStatus.pending
  · apply hskip
    simp only [worker_deliver, h]
    simp only [bne_self_eq_false, Bool.false_eq_true, if_false]
    cases o with
    | ran tcs lf er => exact judge_submission_status_ne_pending s tcs lf er
    | raised msg => simp [worker_exception_update]
  · rw [hskip s o h]
    exact hskip s o' h

/-- Witness for `worker_deliver_skips_and_idempotent`: an `ACCEPTED`
submission delivered to the worker is returned unchanged. -/
theorem worker_deliver_skips_witness :
    worker_deliver (accept_submission (createdSubmission 2)) (.raised "dup") =
      accept_submission (createdSubmission 2) :=
  worker_deliver_skips_and_idempotent.1 (accept_submission (createdSubmission 2))
    (.raised "dup") (by decide)

/-- Counterexample to C3 as stated: in the INDIVIDUAL strategy
(`_run_single_test`), a sandbox process that itself exits with code 124 is
classified `RUNTIME_ERROR`, not `TIME_LIMIT_EXCEEDED` — the
`returncode != 0` check runs first and has no special case for 124; only the
subprocess-level timeout exception produces `TIME_LIMIT_EXCEEDED` (with a
synthetic exit code 124). -/
theorem individual_exit124_runtime_error :
    (run_single_test DEFAULT_LIMITS 0 "" (.completed "" "boom" 124 5)).status =
        ExecutionStatus.runtime_error ∧
    (run_single_test DEFAULT_LIMITS 0 "" (.completed "" "boom" 124 5)).exit_code = 124 ∧
    ExecutionStatus.runtime_error ≠ ExecutionStatus.time_limit_exceeded :=
  ⟨rfl, rfl, by decide⟩

/-- C3 (amended): verdict classification per raw sandbox result.  BATCH
(`_parse_batch_results`): exit code 124 is `TIME_LIMIT_EXCEEDED`, any other
non-zero exit `RUNTIME_ERROR`, and exit code 0 compares stdout under §4.3.1
when the record's index lies within the expected-output list (an
out-of-range index is C10's case).  INDIVIDUAL (`_run_single_test`): any
non-zero exit code — including 124 — is `RUNTIME_ERROR`; exit code 0
compares under §4.3.1; `TIME_LIMIT_EXCEEDED` arises only from the
sandbox-level timeout, which synthesises exit code 124. -/
theorem verdict_classification :
    (∀ (limits : ResourceLimits) (expected : List String) (pos : Nat) (raw : RawBatchRecord),
      raw.exit_code.getD 0 = 124 →
        (batchRecord limits expected pos raw).status = ExecutionStatus.time_limit_exceeded) ∧
    (∀ (limits : ResourceLimits) (expected : List String) (pos : Nat) (raw : RawBatchRecord),
      raw.exit_code.getD 0 ≠ 124 → raw.exit_code.getD 0 ≠ 0 →
        (batchRecord limits expected pos raw).status = ExecutionStatus.runtime_error) ∧
    (∀ (limits : ResourceLimits) (expected : List String) (pos : Nat) (raw : RawBatchRecord)
        (h : raw.index.getD pos < expected.length),
      raw.exit_code.getD 0 = 0 →
        (batchRecord limits expected pos raw).status =
          (if outputs_match (pyStrip (raw.stdout.getD "")) (expected.get ⟨raw.index.getD pos, h⟩)
            then ExecutionStatus.success else ExecutionStatus.wrong_answer)) ∧
    (∀ (limits : ResourceLimits) (index : Nat) (expected out err : String) (code elapsed : Int),
      code ≠ 0 →
        (run_single_test limits index expected (.completed out err code elapsed)).status =
          ExecutionStatus.runtime_error) ∧
    (∀ (limits : ResourceLimits) (index : Nat) (expected out err : String) (elapsed : Int),
      (run_single_test limits index expected (.completed out err 0 elapsed)).status =
        (if outputs_match (pyStrip out) expected then ExecutionStatus.success
          else ExecutionStatus.wrong_answer)) ∧
    (∀ (limits : ResourceLimits) (index : Nat) (expected : String),
      (run_single_test limits index expected .timedOut).status =
          ExecutionStatus.time_limit_exceeded ∧
        (run_single_test limits index expected .timedOut).exit_code = 124) := by
  refine ⟨?_, ?_, ?_, ?_, ?_, ?_⟩
  · intro limits expected pos raw h
    simp [batchRecord, h]
  · intro limits expected pos raw h124 h0
    simp [batchRecord, h124, h0]
  · intro limits expected pos raw h hcode
    simp only [batchRecord, hcode]
    norm_num
    rw [dif_pos h]
  · intro limits index expected out err code elapsed h
    simp [run_single_test, classify_individual, h]
  · intro limits index expected out err elapsed
    simp only [run_single_test, classify_individual]
    norm_num
  · intro limits index expected
    exact ⟨rfl, rfl⟩

/-- Witness for `verdict_classification`: a batch record with exit code 124
is a timeout, one with exit code 3 a runtime error, a matching exit-zero
record a success; an individual run with exit code 2 is a runtime error. -/
theorem verdict_classification_witness :
    (batchRecord DEFAULT_LIMITS ["1"] 0 ⟨some 0, some "1", some "", some 124, some 0, some 0⟩).status
        = ExecutionStatus.time_limit_exceeded ∧
    (batchRecord DEFAULT_LIMITS ["1"] 0 ⟨some 0, some "1", some "", some 3, some 0, some 0⟩).status
        = ExecutionStatus.runtime_error ∧
    (batchRecord DEFAULT_LIMITS ["1"] 0 ⟨some 0, some "1", some "", some 0, some 0, some 0⟩).status
        = (if outputs_match (pyStrip "1") (["1"].get ⟨0, by decide⟩)
            then ExecutionStatus.success else ExecutionStatus.wrong_answer) ∧
    (run_single_test DEFAULT_LIMITS 0 "1" (.completed "1" "" 2 5)).status
        = ExecutionStatus.runtime_error :=
  ⟨verdict_classification.1 DEFAULT_LIMITS ["1"] 0 _ rfl,
   verdict_classification.2.1 DEFAULT_LIMITS ["1"] 0 _ (by decide) (by decide),
   verdict_classification.2.2.1 DEFAULT_LIMITS ["1"] 0 _ (by decide) rfl,
   verdict_classification.2.2.2.1 DEFAULT_LIMITS 0 "1" "1" "" 2 5 (by decide)⟩

/-- Truncating a non-empty string to a positive length is non-empty. -/
theorem pyTake_ne_empty (s : String) (n : Nat) (hs : s ≠ "") (hn : 0 < n) :
    pyTake s n ≠ "" := by
  intro h
  apply hs
  have hdata : s.data.take n = [] := congrArg String.data h
  rcases List.take_eq_nil_iff.mp hdata with h' | h'
  · exact absurd h' (Nat.pos_iff_ne_zero.mp hn)
  · exact String.ext h'

/-- C9: when the language needs compilation and the compile sandbox exits
non-zero, `execute` short-circuits: status `COMPILATION_ERROR`, no per-test
results, `passed_count = 0`, `total_count` the number of inputs, and the
compile output (`stderr or stdout or "Compilation failed"`) truncated to 2000
characters; `_process_results` then persists exactly the single
`compilation_error` record carrying the first 2000 characters of that
output. -/
theorem compile_error_short_circuit :
    ∀ (limits : ResourceLimits) (slug : String) (L : LanguageConfig) (ins outs : List String)
      (env : SandboxEnv) (code : Int) (outS errS out : String),
      get_language slug = some L → L.needs_compilation = true →
      env.compileOutcome = .completed code outS errS → code ≠ 0 →
      compileStep env.compileOutcome = (false, out) →
      executeModel limits slug ins outs env =
        { status := .compilation_error, test_results := [], compilation_output := some out,
          total_runtime_ms := env.wall_ms, passed_count := 0, total_count := ins.length } ∧
      out.length ≤ 2000 ∧
      (∀ (s : Submission) (tcs : List TestCaseRec),
        (process_results s tcs (executeModel limits slug ins outs env)).results =
          some [ResultEntry.compilationErrorRec (pyTake out 2000)]) := by
  intro limits slug L ins outs env code outS errS out hlang hcomp hco hcode hcs
  have hout : out = pyTake
      (if (errS != "") = true then errS
        else if (outS != "") = true then outS else "Compilation failed") 2000 := by
    rw [hco] at hcs
    simp only [compileStep] at hcs
    rw [if_pos (by simpa using hcode)] at hcs
    exact (Prod.mk.injEq _ _ _ _ ▸ hcs).2.symm
  have hne : out ≠ "" := by
    rw [hout]
    apply pyTake_ne_empty _ _ _ (by norm_num)
    by_cases h1 : (errS != "") = true
    · rw [if_pos h1]
      exact bne_iff_ne.mp h1
    · rw [if_neg h1]
      by_cases h2 : (outS != "") = true
      · rw [if_pos h2]
        exact bne_iff_ne.mp h2
      · rw [if_neg h2]
        decide
  have hexec : executeModel limits slug ins outs env =
      { status := .compilation_error, test_results := [], compilation_output := some out,
        total_runtime_ms := env.wall_ms, passed_count := 0, total_count := ins.length } := by
    simp only [executeModel, hlang, hcomp, if_true, hcs]
  refine ⟨hexec, hout ▸ pyTake_length_le _ _, ?_⟩
  intro s tcs
  rw [hexec, process_results_results]
  simp only []
  rw [if_pos (bne_iff_ne.mpr hne)]
  simp [detailEntries]

/-- Witness for `compile_error_short_circuit`: a Java submission whose
compiler exits 1 with stderr "bad;". -/
theorem compile_error_short_circuit_witness :
    executeModel DEFAULT_LIMITS "java" ["a", "b"] ["x", "y"]
        ⟨.completed 1 "" "bad;", .timedOut, [], 0, 42⟩ =
      { status := .compilation_error, test_results := [],
        compilation_output := some (pyTake "bad;" 2000),
        total_runtime_ms := 42, passed_count := 0, total_count := 2 } ∧
    (process_results (createdSubmission 2) []
        (executeModel DEFAULT_LIMITS "java" ["a", "b"] ["x", "y"]
          ⟨.completed 1 "" "bad;", .timedOut, [], 0, 42⟩)).results =
      some [ResultEntry.compilationErrorRec (pyTake (pyTake "bad;" 2000) 2000)] := by
  have h := compile_error_short_circuit DEFAULT_LIMITS "java"
    { slug := "java", needs_compilation := true, strategy := .individual }
    ["a", "b"] ["x", "y"] ⟨.completed 1 "" "bad;", .timedOut, [], 0, 42⟩
    1 "" "bad;" (pyTake "bad;" 2000) rfl rfl rfl (by decide) rfl
  exact ⟨h.1, h.2.2 (createdSubmission 2) []⟩

/-- C10: a batch-runner record with exit code 0 whose index is at or beyond
the expected-output list falls into `_parse_batch_results`' final `else`
branch and is classified `SUCCESS` with no output comparison, and such a
record counts toward `passed_count` in the aggregated result. -/
theorem batch_out_of_range_success :
    (∀ (limits : ResourceLimits) (expected : List String) (pos : Nat) (raw : RawBatchRecord),
      raw.exit_code.getD 0 = 0 → expected.length ≤ raw.index.getD pos →
        (batchRecord limits expected pos raw).status = ExecutionStatus.success) ∧
    (∀ (limits : ResourceLimits) (expected : List String) (raw : RawBatchRecord) (t : Int),
      raw.exit_code.getD 0 = 0 → expected.length ≤ raw.index.getD 0 →
        (build_result (parse_batch_results limits [raw] expected) t).passed_count = 1) := by
  have hstatus : ∀ (limits : ResourceLimits) (expected : List String) (pos : Nat)
      (raw : RawBatchRecord),
      raw.exit_code.getD 0 = 0 → expected.length ≤ raw.index.getD pos →
        (batchRecord limits expected pos raw).status = ExecutionStatus.success := by
    intro limits expected pos raw hcode hidx
    have h124 : ((raw.exit_code.getD 0) == (124 : Int)) = false := by rw [hcode]; rfl
    have h0 : ((raw.exit_code.getD 0) != (0 : Int)) = false := by rw [hcode]; rfl
    simp only [batchRecord, h124, h0, Bool.false_eq_true, if_false]
    rw [dif_neg (Nat.not_lt.mpr hidx)]
  refine ⟨hstatus, ?_⟩
  intro limits expected raw t hcode hidx
  have hone : parse_batch_results limits [raw] expected =
      [batchRecord limits expected 0 raw] := by
    simp [parse_batch_results]
  rw [hone]
  simp [build_result, hstatus limits expected 0 raw hcode hidx]

/-- Witness for `batch_out_of_range_success`: a record claiming index 5 with
exit code 0 against an empty expected list is marked `SUCCESS` and counted as
passed. -/
theorem batch_out_of_range_success_witness :
    (batchRecord DEFAULT_LIMITS [] 0 ⟨some 5, some "junk", some "", some 0, some 1, some 2⟩).status
        = ExecutionStatus.success ∧
    (build_result (parse_batch_results DEFAULT_LIMITS
        [⟨some 5, some "junk", some "", some 0, some 1, some 2⟩] []) 9).passed_count = 1 :=
  ⟨batch_out_of_range_success.1 DEFAULT_LIMITS [] 0 _ rfl (by decide),
   batch_out_of_range_success.2 DEFAULT_LIMITS [] _ 9 rfl (by decide)⟩

/-- `get_test_cases` only ever writes the cache: every other component of the
state is preserved. -/
theorem get_test_cases_state (db : AppDb) (pid : Nat) (fr : Bool) :
    ((get_test_cases db pid fr).2).problems = db.problems ∧
    ((get_test_cases db pid fr).2).languages = db.languages ∧
    ((get_test_cases db pid fr).2).testCaseStore = db.testCaseStore ∧
    ((get_test_cases db pid fr).2).submissions = db.submissions ∧
    ((get_test_cases db pid fr).2).nextId = db.nextId := by
  simp only [get_test_cases]
  rcases assocFind db.cache pid with _ | cached
  · simp [get_test_cases.refreshFrom]
  · by_cases hfr : fr = true
    · simp [hfr, get_test_cases.refreshFrom]
    · simp [hfr]

/-- C8: `create_submission` (with the `submitCode` route around it) rejects a
missing problem or language with a 404 error and an inactive language with a
400 error, leaving the state and the job list untouched; on success it reads
the cached test-case list, appends one `PENDING` row with `passed = false`,
`passed_count = 0` and `total_count` the number of cached test cases, and
schedules exactly the new id for judging. -/
theorem create_submission_behaviour :
    ∀ (db : AppDb) (jobs : List Nat) (data : SubmissionCreate),
      (db.problems.contains data.problem_id = false →
        submitCode db jobs data = (.error (.notFound "Problem not found"), db, jobs)) ∧
      (db.problems.contains data.problem_id = true →
        db.languages.find? (fun L => L.id == data.language_id) = none →
        submitCode db jobs data = (.error (.notFound "Language not found"), db, jobs)) ∧
      (∀ L, db.problems.contains data.problem_id = true →
        db.languages.find? (fun L => L.id == data.language_id) = some L →
        L.is_active = false →
        submitCode db jobs data = (.error (.badRequest "Language not supported"), db, jobs)) ∧
      (∀ L tcs db', db.problems.contains data.problem_id = true →
        db.languages.find? (fun L => L.id == data.language_id) = some L →
        L.is_active = true →
        get_test_cases db data.problem_id false = (tcs, db') →
        submitCode db jobs data =
          (.ok db.nextId,
            { db' with
              submissions := db'.submissions ++ [(db.nextId, createdSubmission tcs.length)]
              nextId := db.nextId + 1 },
            jobs ++ [db.nextId])) := by
  intro db jobs data
  refine ⟨?_, ?_, ?_, ?_⟩
  · intro h
    simp only [submitCode, create_submission, h]
    rfl
  · intro hp hl
    simp only [submitCode, create_submission, hp, hl]
    rfl
  · intro L hp hl ha
    simp only [submitCode, create_submission, hp, hl, ha]
    rfl
  · intro L tcs db' hp hl ha htc
    have hn : db'.nextId = db.nextId := by
      have : db' = (get_test_cases db data.problem_id false).2 := by rw [htc]
      rw [this]
      exact (get_test_cases_state db data.problem_id false).2.2.2.2
    simp only [submitCode, create_submission, hp, hl, ha, htc, hn]
    rfl

/-- Witness for `create_submission_behaviour`: a concrete one-problem
database.  A valid submission inserts a `PENDING` row recording the single
cached test case and appends the fresh id 10 to the job list; a submission
for a missing problem is rejected with 404 and changes nothing. -/
theorem create_submission_behaviour_witness :
    submitCode
        ⟨[1], [⟨1, "python3", true⟩], [(1, [⟨4, "in", "out", 0, false⟩])], [], [], 10⟩
        [5] ⟨1, 1, "code"⟩ =
      (.ok 10,
        ⟨[1], [⟨1, "python3", true⟩], [(1, [⟨4, "in", "out", 0, false⟩])],
          [(1, [⟨4, "in", "out", 0, false⟩])], [(10, createdSubmission 1)], 11⟩,
        [5, 10]) ∧
    submitCode
        ⟨[1], [⟨1, "python3", true⟩], [(1, [⟨4, "in", "out", 0, false⟩])], [], [], 10⟩
        [5] ⟨2, 1, "code"⟩ =
      (.error (.notFound "Problem not found"),
        ⟨[1], [⟨1, "python3", true⟩], [(1, [⟨4, "in", "out", 0, false⟩])], [], [], 10⟩,
        [5]) := by
  constructor
  · have h := (create_submission_behaviour
      ⟨[1], [⟨1, "python3", true⟩], [(1, [⟨4, "in", "out", 0, false⟩])], [], [], 10⟩
      [5] ⟨1, 1, "code"⟩).2.2.2 ⟨1, "python3", true⟩ [⟨4, "in", "out", 0, false⟩]
      ⟨[1], [⟨1, "python3", true⟩], [(1, [⟨4, "in", "out", 0, false⟩])],
        [(1, [⟨4, "in", "out", 0, false⟩])], [], 10⟩ rfl rfl rfl rfl
    exact h
  · exact (create_submission_behaviour
      ⟨[1], [⟨1, "python3", true⟩], [(1, [⟨4, "in", "out", 0, false⟩])], [], [], 10⟩
      [5] ⟨2, 1, "code"⟩).1 rfl

end Judge
